import Mathlib

/-!
Shallow embedding of `src/sairen/env.py` (MarketEnv): the episode/step state
machine, the accounting state, the bar-queue bridge, and the gateway callbacks.

Numeric values (prices, profits, actions) are modelled as exact rationals.
The broker gateway (`IBroke`) is an external black box: its queried values
(position, open-order count, connectedness, cost basis) enter as inputs, and
the commands the environment sends to it (`cancel_all`, `order_target`,
`flatten`) are recorded in an explicit trace.  Asynchronous events (order
fills, market-data bars) are delivered as explicit lists at the program
points where the Python code can observe them.
-/

/-- An observation vector (`numpy` float array in the source). -/
abbrev ObsVec := List ℚ

/-- A raw market-data bar: the fixed 15-field schema from `ibroke.Bar`. -/
structure BarRec where
  time : ℚ
  bid : ℚ
  bidsize : ℚ
  ask : ℚ
  asksize : ℚ
  last : ℚ
  lastsize : ℚ
  lasttime : ℚ
  open_ : ℚ
  high : ℚ
  low : ℚ
  close : ℚ
  vwap : ℚ
  volume : ℚ
  open_interest : ℚ
deriving Repr, DecidableEq

/-- `np.asarray(bar, dtype=float)`: the bar as a flat numeric vector. -/
def BarRec.vec (b : BarRec) : ObsVec :=
  [b.time, b.bid, b.bidsize, b.ask, b.asksize, b.last, b.lastsize, b.lasttime,
   b.open_, b.high, b.low, b.close, b.vwap, b.volume, b.open_interest]

/-- Snapshot of what the black-box gateway reports when queried
(`ib.get_position`, `ib.get_open_orders`, `ib.connected`, `ib.get_cost`). -/
structure Gateway where
  position : ℤ
  openOrders : ℕ
  connected : Bool
  cost : Option ℚ
deriving Repr, DecidableEq

/-- A command the environment issues to the gateway, in order. -/
inductive GatewayCmd where
  | cancelAll : GatewayCmd
  | orderTarget (n : ℤ) : GatewayCmd
  | flattenCmd : GatewayCmd
deriving Repr, DecidableEq

/-- The mutable state of a `MarketEnv` instance: one field per Python
instance attribute that the claims touch.  `data_q` is `none` before the
first `reset` (Python `None`) and `some q` afterwards; queue elements are
`Option ObsVec` so that the "sentinel is never enqueued" invariant is a
statement, not a typing artifact. -/
structure EnvState where
  max_quantity : ℕ
  episode_steps : Option ℕ
  leverage : ℚ
  data_q : Option (List (Option ObsVec))
  profit : ℚ
  episode_profit : ℚ
  reward : Option ℚ
  raw_obs : Option BarRec
  observation : Option ObsVec
  pos_desired : ℤ
  done : Bool
  step_num : ℕ
  unrealized_gain : ℚ
  finish_on_next_step : Bool
  action : ℚ
  act_time : List ℚ
  pos_actual : ℤ
  xform : ObsVec → ℚ → ℤ → ℕ → Option ObsVec

/-- The default observation transform `lambda obs, *args: obs`. -/
def defaultXform : ObsVec → ℚ → ℤ → ℕ → Option ObsVec :=
  fun obs _ _ _ => some obs

/-- `deque(maxlen=10).append`: append, dropping the oldest entries beyond 10. -/
def pushLatency (x : ℚ) (l : List ℚ) : List ℚ :=
  let l' := l ++ [x]
  if 10 < l'.length then l'.drop (l'.length - 10) else l'

/-- Python 3 `round` (round half to even) on an exact rational, as an integer:
`int(round(x))`. -/
def pythonRound (x : ℚ) : ℤ :=
  let f : ℤ := x.floor
  let r : ℚ := x - f
  if r < 1/2 then f
  else if 1/2 < r then f + 1
  else if f % 2 = 0 then f else f + 1

/-- `np.clip(action, -1, 1)`. -/
def clip1 (x : ℚ) : ℚ := min (max x (-1)) 1

/-- `_on_order`: an order-status callback delivering a fill with realized
profit `p` adds it to the per-step profit accumulator. -/
def onOrder (s : EnvState) (p : ℚ) : EnvState :=
  { s with profit := s.profit + p }

/-- A sequence of fill events delivered by the gateway thread. -/
def applyFills (s : EnvState) (fs : List ℚ) : EnvState :=
  fs.foldl onOrder s

/-- The transformed observation computed inside `_on_mktdata`:
`self._xform(np.asarray(bar), unrealized_gain, pos_actual, max_quantity)`. -/
def mktdataObs (g : Gateway) (s : EnvState) (bar : BarRec) : Option ObsVec :=
  let pos := g.position
  let gain : ℚ := pos * s.leverage *
    ((if 0 < pos then bar.bid else bar.ask) - (g.cost.getD 0))
  s.xform bar.vec gain pos s.max_quantity

/-- `_on_mktdata`: update the raw-bar cache, actual-position cache and
unrealized gain, then enqueue the transformed observation iff it is not the
not-ready sentinel, the gateway is connected, the episode is not done, and
the queue has been initialized by a reset. -/
def onMktdata (g : Gateway) (s : EnvState) (bar : BarRec) : EnvState :=
  let pos := g.position
  let gain : ℚ := pos * s.leverage *
    ((if 0 < pos then bar.bid else bar.ask) - (g.cost.getD 0))
  let s1 := { s with raw_obs := some bar, pos_actual := pos, unrealized_gain := gain }
  match mktdataObs g s bar, s1.data_q with
  | some v, some q =>
      if g.connected && !s1.done then { s1 with data_q := some (q ++ [some v]) } else s1
  | _, _ => s1

/-- `finish_on_next_step`: request that the next `step` be terminal. -/
def finishOnNextStep (s : EnvState) : EnvState :=
  { s with finish_on_next_step := true }

/-- The termination test of `_step` (evaluated after `step_num` was already
incremented): `self._finish_on_next_step or (self.episode_steps is not None
and self.step_num >= self.episode_steps)`. -/
def forcedDone (s : EnvState) : Bool :=
  s.finish_on_next_step ||
    (match s.episode_steps with
     | some n => decide (n ≤ s.step_num)
     | none => false)

/-- The first mutations `_step` performs, before the done-precondition check:
append the decision latency and increment the step counter. -/
def stepEntry (s : EnvState) (elapsed : ℚ) : EnvState :=
  { s with act_time := pushLatency elapsed s.act_time, step_num := s.step_num + 1 }

/-- The order-issuance guard of `_step`:
`abs(position) <= max_quantity + 1 and open_orders <= 2`. -/
def issueGuard (g : Gateway) (s : EnvState) : Bool :=
  decide (g.position.natAbs ≤ s.max_quantity + 1) && decide (g.openOrders ≤ 2)

/-- Everything `_step` computes between the done-precondition check and the
blocking dequeue: the local `done` decision, action forcing and clipping,
order issuance, and the profit read. -/
structure PreDequeue where
  state : EnvState
  reward : ℚ
  doneLocal : Bool
  trace : List GatewayCmd

/-- The pre-dequeue phase of `_step`, applied to the post-entry state:
decide termination, force/save/clip the action, cancel and conditionally
issue the target order, then read and zero the profit accumulator. -/
def stepPreDequeue (g : Gateway) (s : EnvState) (action : ℚ) : PreDequeue :=
  let dl := forcedDone s
  let a : ℚ := if dl then 0 else action
  let s2 := { s with action := a }
  let clipped := clip1 a
  let issue := issueGuard g s2
  let target := pythonRound (clipped * s2.max_quantity)
  let s3 := { s2 with pos_desired := if issue then target else s2.pos_desired }
  let trace := if issue
    then [GatewayCmd.cancelAll, GatewayCmd.orderTarget target]
    else [GatewayCmd.cancelAll]
  let s4 := { s3 with
    reward := some s3.profit,
    episode_profit := s3.episode_profit + s3.profit,
    profit := 0 }
  ⟨s4, s3.profit, dl, trace⟩

/-- `queue.get()` against the bridge: pop the head if the queue is nonempty,
otherwise block until the producer enqueues the next ready observation
(`next`), which is consumed immediately. -/
def dequeueQ (q : List (Option ObsVec)) (next : ObsVec) :
    Option ObsVec × List (Option ObsVec) :=
  match q with
  | x :: xs => (x, xs)
  | [] => (some next, [])

/-- External happenings a single `_step` call can observe: the agent's
decision latency, fills delivered while blocked on the dequeue, and the
observation the producer enqueues if the queue is empty at dequeue time. -/
structure StepExt where
  elapsed : ℚ
  fillsDuringWait : List ℚ
  nextObs : ObsVec

/-- Result of a `_step` call: either an exception (with the state as
mutated up to the raise) or the 4-tuple plus the final state and the
gateway-command trace. -/
inductive StepOutcome where
  | err (msg : String) (s : EnvState) : StepOutcome
  | ok (s : EnvState) (obs : Option ObsVec) (reward : ℚ) (done : Bool)
      (trace : List GatewayCmd) : StepOutcome

def StepOutcome.isOk : StepOutcome → Bool
  | .ok _ _ _ _ _ => true
  | .err _ _ => false

def StepOutcome.isErr : StepOutcome → Bool
  | .ok _ _ _ _ _ => false
  | .err _ _ => true

def StepOutcome.state : StepOutcome → EnvState
  | .ok s _ _ _ _ => s
  | .err _ s => s

def StepOutcome.rewardOut : StepOutcome → ℚ
  | .ok _ _ r _ _ => r
  | .err _ _ => 0

def StepOutcome.doneOut : StepOutcome → Bool
  | .ok _ _ _ d _ => d
  | .err _ _ => false

def StepOutcome.traceOut : StepOutcome → List GatewayCmd
  | .ok _ _ _ _ t => t
  | .err _ _ => []

def StepOutcome.obsOut : StepOutcome → Option ObsVec
  | .ok _ o _ _ _ => o
  | .err _ _ => none

/-- `_step`: record latency and step count, raise if done, decide forced
termination, save the raw action and clip it, cancel outstanding orders and
issue the guarded target order, read and zero the per-step profit, block on
the queue for the next observation (fills arriving meanwhile accumulate),
and only then assign the `done` flag. -/
def step (g : Gateway) (s : EnvState) (action : ℚ) (ext : StepExt) : StepOutcome :=
  let s1 := stepEntry s ext.elapsed
  if s1.done then .err "done" s1
  else
    match s1.data_q with
    | none => .err "no queue" s1
    | some q =>
      let pre := stepPreDequeue g s1 action
      let s5 := applyFills pre.state ext.fillsDuringWait
      let (obs, q') := dequeueQ q ext.nextObs
      let s6 := { s5 with data_q := some q', observation := obs, done := pre.doneLocal }
      .ok s6 obs pre.reward pre.doneLocal pre.trace

/-- `flatten` as seen through the gateway's documented contract ("cancel any
open orders and close any positions"): the gateway ends with no open orders
and a flat position. -/
def gatewayFlatten (g : Gateway) : Gateway :=
  { g with position := 0, openOrders := 0 }

/-- `_reset`: set done to block the producer, flatten via the gateway, zero
all episode accounting, clear the flags, install a fresh queue, and block
for the first observation (`firstObs`, supplied by the producer), which is
returned with the queue empty again. -/
def reset (g : Gateway) (s : EnvState) (firstObs : ObsVec) :
    EnvState × Gateway × ObsVec :=
  let g' := gatewayFlatten g
  let s' := { s with
    profit := 0,
    episode_profit := 0,
    reward := some 0,
    unrealized_gain := 0,
    done := false,
    action := 0,
    pos_desired := 0,
    finish_on_next_step := false,
    step_num := 0,
    data_q := some [],
    observation := some firstObs }
  (s', g', firstObs)

/-! ## Concrete fixtures used by counterexamples and witnesses -/

/-- A gateway reporting a flat position, no open orders, connected. -/
def g0 : Gateway := { position := 0, openOrders := 0, connected := true, cost := none }

/-- A freshly reset environment with `max_quantity = 10` and no step limit. -/
def sActive : EnvState :=
  { max_quantity := 10, episode_steps := none, leverage := 1, data_q := some [],
    profit := 0, episode_profit := 0, reward := some 0, raw_obs := none,
    observation := none, pos_desired := 0, done := false, step_num := 0,
    unrealized_gain := 0, finish_on_next_step := false, action := 0,
    act_time := [], pos_actual := 0, xform := defaultXform }

/-- The state right after `__init__`: done, no queue yet. -/
def sInit : EnvState := { sActive with done := true, data_q := none }

/-- A quiet inter-step interval: no fills during the wait, one bar ready. -/
def ext0 : StepExt := { elapsed := 0, fillsDuringWait := [], nextObs := [1] }

/-- Like `sActive` but with a one-step episode limit. -/
def sLimit : EnvState := { sActive with episode_steps := some 1 }

/-- A gateway reporting position 11 (within `max_quantity + 1 = 11`). -/
def g11 : Gateway := { position := 11, openOrders := 0, connected := true, cost := none }

/-- A gateway reporting position 12 (beyond `max_quantity + 1 = 11`). -/
def g12 : Gateway := { position := 12, openOrders := 0, connected := true, cost := none }

/-- A gateway reporting three open orders. -/
def gBusy : Gateway := { position := 0, openOrders := 3, connected := true, cost := none }

/-- An all-zero market-data bar. -/
def b0 : BarRec := ⟨0, 0, 0, 0, 0, 0, 0, 0, 0, 0, 0, 0, 0, 0, 0⟩

/-! ## Helper lemmas -/

theorem applyFills_eq (s : EnvState) (fs : List ℚ) :
    applyFills s fs = { s with profit := s.profit + fs.sum } := by
  induction fs generalizing s with
  | nil => simp [applyFills]
  | cons f fs ih =>
      simp only [applyFills, List.foldl_cons, List.sum_cons] at *
      rw [ih]
      simp [onOrder, add_assoc]

theorem stepEntry_done (s : EnvState) (e : ℚ) : (stepEntry s e).done = s.done := rfl

theorem stepEntry_data_q (s : EnvState) (e : ℚ) : (stepEntry s e).data_q = s.data_q := rfl

theorem stepEntry_profit (s : EnvState) (e : ℚ) : (stepEntry s e).profit = s.profit := rfl

theorem stepPreDequeue_reward (g : Gateway) (s : EnvState) (a : ℚ) :
    (stepPreDequeue g s a).reward = s.profit := rfl

theorem stepPreDequeue_state_profit (g : Gateway) (s : EnvState) (a : ℚ) :
    (stepPreDequeue g s a).state.profit = 0 := rfl

theorem stepPreDequeue_doneLocal (g : Gateway) (s : EnvState) (a : ℚ) :
    (stepPreDequeue g s a).doneLocal = forcedDone s := rfl

theorem stepPreDequeue_state_done (g : Gateway) (s : EnvState) (a : ℚ) :
    (stepPreDequeue g s a).state.done = s.done := rfl

theorem stepPreDequeue_state_action (g : Gateway) (s : EnvState) (a : ℚ) :
    (stepPreDequeue g s a).state.action = if forcedDone s then 0 else a := rfl

theorem stepPreDequeue_state_pos_desired (g : Gateway) (s : EnvState) (a : ℚ) :
    (stepPreDequeue g s a).state.pos_desired =
      if issueGuard g s
      then pythonRound (clip1 (if forcedDone s then 0 else a) * s.max_quantity)
      else s.pos_desired := rfl

theorem stepPreDequeue_trace (g : Gateway) (s : EnvState) (a : ℚ) :
    (stepPreDequeue g s a).trace =
      if issueGuard g s
      then [GatewayCmd.cancelAll,
            GatewayCmd.orderTarget
              (pythonRound (clip1 (if forcedDone s then 0 else a) * s.max_quantity))]
      else [GatewayCmd.cancelAll] := rfl

theorem stepEntry_max_quantity (s : EnvState) (e : ℚ) :
    (stepEntry s e).max_quantity = s.max_quantity := rfl

theorem issueGuard_stepEntry (g : Gateway) (s : EnvState) (e : ℚ) :
    issueGuard g (stepEntry s e) = issueGuard g s := rfl

theorem stepEntry_pos_desired (s : EnvState) (e : ℚ) :
    (stepEntry s e).pos_desired = s.pos_desired := rfl

theorem rat_floor_eq_intFloor (q : ℚ) : q.floor = ⌊q⌋ := by
  rw [Rat.floor_def', Rat.floor_def]

theorem clip1_zero : clip1 0 = 0 := by decide

theorem pythonRound_zero : pythonRound 0 = 0 := by
  have hf : ((0 : ℚ)).floor = 0 := by
    rw [rat_floor_eq_intFloor]
    exact Int.floor_zero
  simp [pythonRound, hf]

theorem pythonRound_11_2 : pythonRound (11/2 : ℚ) = 6 := by
  have hf : ((11/2 : ℚ)).floor = 5 := by
    rw [rat_floor_eq_intFloor, Int.floor_eq_iff]
    norm_num
  rw [pythonRound.eq_1, hf]
  norm_num

theorem pythonRound_5_2 : pythonRound (5/2 : ℚ) = 2 := by
  have hf : ((5/2 : ℚ)).floor = 2 := by
    rw [rat_floor_eq_intFloor, Int.floor_eq_iff]
    norm_num
  rw [pythonRound.eq_1, hf]
  norm_num

/-- Normal form of a `step` call that passes the done-precondition check:
entry mutations, pre-dequeue phase, fills during the wait, dequeue, and the
deferred `done` assignment. -/
theorem step_active_eq (g : Gateway) (s : EnvState) (a : ℚ) (ext : StepExt)
    (q0 : List (Option ObsVec)) (hdone : s.done = false) (hq : s.data_q = some q0) :
    step g s a ext =
      .ok { applyFills (stepPreDequeue g (stepEntry s ext.elapsed) a).state
              ext.fillsDuringWait with
            data_q := some (dequeueQ q0 ext.nextObs).2,
            observation := (dequeueQ q0 ext.nextObs).1,
            done := (stepPreDequeue g (stepEntry s ext.elapsed) a).doneLocal }
        (dequeueQ q0 ext.nextObs).1
        (stepPreDequeue g (stepEntry s ext.elapsed) a).reward
        (stepPreDequeue g (stepEntry s ext.elapsed) a).doneLocal
        (stepPreDequeue g (stepEntry s ext.elapsed) a).trace := by
  simp [step, stepEntry_done, stepEntry_data_q, hdone, hq]

/-! ## Claims -/

/-- C9: `reset` always returns with the gateway position flattened to zero,
episode-cumulative profit zero, per-step profit zero, step counter zero, and
the done and finish-request flags cleared, whatever the prior state. -/
theorem reset_flattens_and_zeroes (g : Gateway) (s : EnvState) (obs : ObsVec) :
    (reset g s obs).2.1.position = 0 ∧
    (reset g s obs).2.1.openOrders = 0 ∧
    (reset g s obs).1.episode_profit = 0 ∧
    (reset g s obs).1.profit = 0 ∧
    (reset g s obs).1.step_num = 0 ∧
    (reset g s obs).1.done = false ∧
    (reset g s obs).1.finish_on_next_step = false ∧
    (reset g s obs).2.2 = obs ∧
    (reset g s obs).1.observation = some obs :=
  ⟨rfl, rfl, rfl, rfl, rfl, rfl, rfl, rfl, rfl⟩

/-- C2 counterexample: stepping while done does fail, but at this concrete
input the step counter is mutated by the failed call, contradicting the
claim that it is unchanged. -/
theorem step_while_done_mutates_counter :
    (step g0 sInit 0 ext0).isErr = true ∧
    (step g0 sInit 0 ext0).state.step_num = sInit.step_num + 1 ∧
    sInit.step_num + 1 ≠ sInit.step_num :=
  ⟨rfl, rfl, by decide⟩

/-- C2 amended: stepping while done raises without mutating per-step profit,
episode profit, or desired position, but it does increment the step counter
and append to the decision-latency history before raising. -/
theorem step_while_done_raises (g : Gateway) (s : EnvState) (a : ℚ)
    (ext : StepExt) (h : s.done = true) :
    (step g s a ext).isErr = true ∧
    (step g s a ext).state.profit = s.profit ∧
    (step g s a ext).state.episode_profit = s.episode_profit ∧
    (step g s a ext).state.pos_desired = s.pos_desired ∧
    (step g s a ext).state.step_num = s.step_num + 1 ∧
    (step g s a ext).state.act_time = pushLatency ext.elapsed s.act_time := by
  simp [step, stepEntry, h, StepOutcome.isErr, StepOutcome.state]

/-- C2 witness: the amended statement at the post-construction state. -/
theorem step_while_done_raises_witness :
    sInit.done = true ∧
    ((step g0 sInit 0 ext0).isErr = true ∧
     (step g0 sInit 0 ext0).state.profit = sInit.profit ∧
     (step g0 sInit 0 ext0).state.episode_profit = sInit.episode_profit ∧
     (step g0 sInit 0 ext0).state.pos_desired = sInit.pos_desired ∧
     (step g0 sInit 0 ext0).state.step_num = sInit.step_num + 1 ∧
     (step g0 sInit 0 ext0).state.act_time = pushLatency ext0.elapsed sInit.act_time) :=
  ⟨rfl, step_while_done_raises g0 sInit 0 ext0 rfl⟩

/-- C1: a returning `step` rewards exactly the accumulated per-step profit
at the read (the sum of the fills delivered since the previous read, which
zeroed the accumulator), zeroes the accumulator immediately after the read,
and increments the episode-cumulative profit by the returned reward. -/
theorem step_reward_accounting (g : Gateway) (s : EnvState) (a : ℚ)
    (ext : StepExt) (fs : List ℚ) (q0 : List (Option ObsVec))
    (hdone : s.done = false) (hq : s.data_q = some q0) (hp : s.profit = 0) :
    (step g (applyFills s fs) a ext).isOk = true ∧
    (step g (applyFills s fs) a ext).rewardOut = fs.sum ∧
    (stepPreDequeue g (stepEntry (applyFills s fs) ext.elapsed) a).state.profit = 0 ∧
    (step g (applyFills s fs) a ext).state.episode_profit
      = s.episode_profit + fs.sum := by
  rw [applyFills_eq]
  simp [step, stepEntry, stepPreDequeue, applyFills_eq, hdone, hq, hp,
    StepOutcome.isOk, StepOutcome.rewardOut, StepOutcome.state]

/-- C1 witness: two fills worth 2 and 3 since the previous read produce
reward 5, a zeroed accumulator at the dequeue, and episode profit 5. -/
theorem step_reward_accounting_witness :
    (step g0 (applyFills sActive [2, 3]) 0 ext0).isOk = true ∧
    (step g0 (applyFills sActive [2, 3]) 0 ext0).rewardOut = ([2, 3] : List ℚ).sum ∧
    (stepPreDequeue g0 (stepEntry (applyFills sActive [2, 3]) ext0.elapsed) 0).state.profit = 0 ∧
    (step g0 (applyFills sActive [2, 3]) 0 ext0).state.episode_profit
      = sActive.episode_profit + ([2, 3] : List ℚ).sum :=
  step_reward_accounting g0 sActive 0 ext0 [2, 3] [] rfl rfl rfl

/-- C10: the profit accumulator is read and zeroed before the blocking
dequeue, so fills delivered during the wait do not enter the returned
reward; they remain in the accumulator and are credited to the reward of
the following step call. -/
theorem fills_during_wait_credit_next_step (g g2 : Gateway) (s : EnvState)
    (a a2 : ℚ) (ext ext2 : StepExt) (q0 : List (Option ObsVec))
    (hdone : s.done = false) (hq : s.data_q = some q0)
    (hnf : forcedDone (stepEntry s ext.elapsed) = false) :
    (step g s a ext).rewardOut = s.profit ∧
    (step g s a ext).state.profit = ext.fillsDuringWait.sum ∧
    (step g2 (step g s a ext).state a2 ext2).rewardOut = ext.fillsDuringWait.sum := by
  have e1 := step_active_eq g s a ext q0 hdone hq
  have hstp : (step g s a ext).state.profit = ext.fillsDuringWait.sum := by
    rw [e1]
    simp [StepOutcome.state, applyFills_eq, stepPreDequeue_state_profit]
  refine ⟨?_, hstp, ?_⟩
  · rw [e1]
    simp [StepOutcome.rewardOut, stepPreDequeue_reward, stepEntry_profit]
  · have hdone2 : (step g s a ext).state.done = false := by
      rw [e1]
      simp [StepOutcome.state, stepPreDequeue_doneLocal, hnf]
    have hq2 : (step g s a ext).state.data_q = some (dequeueQ q0 ext.nextObs).2 := by
      rw [e1]
      rfl
    have e2 := step_active_eq g2 ((step g s a ext).state) a2 ext2
      (dequeueQ q0 ext.nextObs).2 hdone2 hq2
    rw [e2]
    simp [StepOutcome.rewardOut, stepPreDequeue_reward, stepEntry_profit, hstp]

/-- C10 witness: fills worth 4 and 1 arriving during the wait leave the
current reward at 0 and are paid as reward 5 by the next step. -/
theorem fills_during_wait_credit_next_step_witness :
    (step g0 sActive 0 { elapsed := 0, fillsDuringWait := [4, 1], nextObs := [1] }).rewardOut
      = sActive.profit ∧
    (step g0 sActive 0 { elapsed := 0, fillsDuringWait := [4, 1], nextObs := [1] }).state.profit
      = ([4, 1] : List ℚ).sum ∧
    (step g0 (step g0 sActive 0 { elapsed := 0, fillsDuringWait := [4, 1], nextObs := [1] }).state
        0 ext0).rewardOut = ([4, 1] : List ℚ).sum :=
  fills_during_wait_credit_next_step g0 g0 sActive 0 0
    { elapsed := 0, fillsDuringWait := [4, 1], nextObs := [1] } ext0 [] rfl rfl rfl

/-- C4: throughout a `step` call the stored done flag stays false while the
call blocks on the dequeue (even on the terminal step, and even as fills
arrive during the wait), so the producer may still enqueue; the flag is
assigned the locally computed terminal decision only in the final state,
after the dequeue has returned. -/
theorem done_assigned_only_after_dequeue (g : Gateway) (s : EnvState)
    (a : ℚ) (ext : StepExt) (q0 : List (Option ObsVec))
    (hdone : s.done = false) (hq : s.data_q = some q0) :
    (applyFills (stepPreDequeue g (stepEntry s ext.elapsed) a).state
        ext.fillsDuringWait).done = false ∧
    (step g s a ext).isOk = true ∧
    (step g s a ext).state.done
      = (stepPreDequeue g (stepEntry s ext.elapsed) a).doneLocal := by
  simp [step, stepEntry, stepPreDequeue, applyFills_eq, hdone, hq,
    StepOutcome.isOk, StepOutcome.state]

/-- C4 witness: on a terminal step (finish requested) the pre-dequeue state
still has done = false while the final state receives done = true. -/
theorem done_assigned_only_after_dequeue_witness :
    ((applyFills (stepPreDequeue g0 (stepEntry (finishOnNextStep sActive) ext0.elapsed) 0).state
        ext0.fillsDuringWait).done = false ∧
     (step g0 (finishOnNextStep sActive) 0 ext0).isOk = true ∧
     (step g0 (finishOnNextStep sActive) 0 ext0).state.done
       = (stepPreDequeue g0 (stepEntry (finishOnNextStep sActive) ext0.elapsed) 0).doneLocal) ∧
    (step g0 (finishOnNextStep sActive) 0 ext0).state.done = true :=
  ⟨done_assigned_only_after_dequeue g0 (finishOnNextStep sActive) 0 ext0 [] rfl rfl, rfl⟩

/-- C3: when the step limit is hit on the Nth call (the counter was N-1
before the call), or when a finish request is pending, the step call forces
the effective action to 0 (any issued order targets position zero) and
returns done = true. -/
theorem step_forced_terminal (g : Gateway) (s : EnvState) (a : ℚ) (ext : StepExt)
    (q0 : List (Option ObsVec)) (hdone : s.done = false) (hq : s.data_q = some q0)
    (hforce : s.finish_on_next_step = true ∨ s.episode_steps = some (s.step_num + 1)) :
    (step g s a ext).isOk = true ∧
    (step g s a ext).doneOut = true ∧
    (step g s a ext).state.done = true ∧
    (step g s a ext).state.action = 0 ∧
    ((step g s a ext).traceOut = [GatewayCmd.cancelAll] ∨
     (step g s a ext).traceOut = [GatewayCmd.cancelAll, GatewayCmd.orderTarget 0]) := by
  have hfd : forcedDone (stepEntry s ext.elapsed) = true := by
    rcases hforce with h | h
    · simp [forcedDone, stepEntry, h]
    · simp [forcedDone, stepEntry, h]
  rw [step_active_eq g s a ext q0 hdone hq]
  refine ⟨rfl, ?_, ?_, ?_, ?_⟩
  · simp [StepOutcome.doneOut, stepPreDequeue_doneLocal, hfd]
  · simp [StepOutcome.state, stepPreDequeue_doneLocal, hfd]
  · simp [StepOutcome.state, applyFills_eq, stepPreDequeue_state_action, hfd]
  · rcases hg : issueGuard g (stepEntry s ext.elapsed) with _ | _
    · left
      simp [StepOutcome.traceOut, stepPreDequeue_trace, hg]
    · right
      simp [StepOutcome.traceOut, stepPreDequeue_trace, hg, hfd, clip1_zero,
        pythonRound_zero]

/-- C3 witness: a pending finish request, and separately a one-step episode
limit on its first step, both force a terminal flattening step. -/
theorem step_forced_terminal_witness :
    ((step g0 (finishOnNextStep sActive) 0 ext0).isOk = true ∧
     (step g0 (finishOnNextStep sActive) 0 ext0).doneOut = true ∧
     (step g0 (finishOnNextStep sActive) 0 ext0).state.done = true ∧
     (step g0 (finishOnNextStep sActive) 0 ext0).state.action = 0 ∧
     ((step g0 (finishOnNextStep sActive) 0 ext0).traceOut = [GatewayCmd.cancelAll] ∨
      (step g0 (finishOnNextStep sActive) 0 ext0).traceOut
        = [GatewayCmd.cancelAll, GatewayCmd.orderTarget 0])) ∧
    ((step g0 sLimit 0 ext0).isOk = true ∧
     (step g0 sLimit 0 ext0).doneOut = true ∧
     (step g0 sLimit 0 ext0).state.done = true ∧
     (step g0 sLimit 0 ext0).state.action = 0 ∧
     ((step g0 sLimit 0 ext0).traceOut = [GatewayCmd.cancelAll] ∨
      (step g0 sLimit 0 ext0).traceOut
        = [GatewayCmd.cancelAll, GatewayCmd.orderTarget 0])) :=
  ⟨step_forced_terminal g0 (finishOnNextStep sActive) 0 ext0 [] rfl rfl (Or.inl rfl),
   step_forced_terminal g0 sLimit 0 ext0 [] rfl rfl (Or.inr rfl)⟩

/-- C5: every active-state step cancels outstanding orders first; the
target-position order is submitted iff |position| ≤ max_quantity + 1 and at
most 2 orders are open; a skipped issuance leaves the desired position
unchanged and the call still succeeds. -/
theorem step_issue_guard (g : Gateway) (s : EnvState) (a : ℚ) (ext : StepExt)
    (q0 : List (Option ObsVec)) (hdone : s.done = false) (hq : s.data_q = some q0) :
    (step g s a ext).traceOut.head? = some GatewayCmd.cancelAll ∧
    ((g.position.natAbs ≤ s.max_quantity + 1 ∧ g.openOrders ≤ 2) →
      (step g s a ext).traceOut
        = [GatewayCmd.cancelAll,
           GatewayCmd.orderTarget ((step g s a ext).state.pos_desired)]) ∧
    (¬(g.position.natAbs ≤ s.max_quantity + 1 ∧ g.openOrders ≤ 2) →
      ((step g s a ext).isOk = true ∧
       (step g s a ext).traceOut = [GatewayCmd.cancelAll] ∧
       (step g s a ext).state.pos_desired = s.pos_desired)) := by
  rw [step_active_eq g s a ext q0 hdone hq]
  refine ⟨?_, ?_, ?_⟩
  · simp only [StepOutcome.traceOut, stepPreDequeue_trace]
    split <;> rfl
  · intro h
    have hgt : issueGuard g s = true := by simp [issueGuard, h.1, h.2]
    simp [StepOutcome.traceOut, StepOutcome.state, stepPreDequeue_trace,
      stepPreDequeue_state_pos_desired, applyFills_eq, issueGuard_stepEntry, hgt,
      stepEntry_max_quantity]
  · intro h
    cases hb : issueGuard g s with
    | true =>
        exfalso
        simp [issueGuard] at hb
        exact h hb
    | false =>
        refine ⟨rfl, ?_, ?_⟩
        · simp [StepOutcome.traceOut, stepPreDequeue_trace, issueGuard_stepEntry, hb]
        · simp [StepOutcome.state, applyFills_eq, stepPreDequeue_state_pos_desired,
            issueGuard_stepEntry, hb, stepEntry_pos_desired]

/-- C5 witness: position 11 with max_quantity 10 still issues (11 ≤ 11);
position 12 skips issuance; three open orders skip issuance; skipped steps
keep the desired position and succeed. -/
theorem step_issue_guard_witness :
    ((step g11 sActive 0 ext0).traceOut
       = [GatewayCmd.cancelAll,
          GatewayCmd.orderTarget ((step g11 sActive 0 ext0).state.pos_desired)]) ∧
    ((step g12 sActive 0 ext0).isOk = true ∧
     (step g12 sActive 0 ext0).traceOut = [GatewayCmd.cancelAll] ∧
     (step g12 sActive 0 ext0).state.pos_desired = sActive.pos_desired) ∧
    ((step gBusy sActive 0 ext0).isOk = true ∧
     (step gBusy sActive 0 ext0).traceOut = [GatewayCmd.cancelAll] ∧
     (step gBusy sActive 0 ext0).state.pos_desired = sActive.pos_desired) :=
  ⟨(step_issue_guard g11 sActive 0 ext0 [] rfl rfl).2.1 (by decide),
   (step_issue_guard g12 sActive 0 ext0 [] rfl rfl).2.2 (by decide),
   (step_issue_guard gBusy sActive 0 ext0 [] rfl rfl).2.2 (by decide)⟩

/-- C6: on every issuing, non-forced step the desired position is
round(clip(action) × max_quantity) under the fixed round-half-to-even rule
of the host language. -/
theorem step_rounding (g : Gateway) (s : EnvState) (a : ℚ) (ext : StepExt)
    (q0 : List (Option ObsVec)) (hdone : s.done = false) (hq : s.data_q = some q0)
    (hguard : issueGuard g s = true)
    (hnf : forcedDone (stepEntry s ext.elapsed) = false) :
    (step g s a ext).state.pos_desired = pythonRound (clip1 a * s.max_quantity) := by
  rw [step_active_eq g s a ext q0 hdone hq]
  simp [StepOutcome.state, applyFills_eq, stepPreDequeue_state_pos_desired,
    issueGuard_stepEntry, hguard, hnf, stepEntry_max_quantity]

/-- C6 witness: action 0.55 with max_quantity 10 gives desired position 6
(round half to even sends 5.5 to 6), and action 0.25 deterministically
gives 2 (2.5 rounds to the even 2). -/
theorem step_rounding_witness :
    (step g0 sActive (11/20) ext0).state.pos_desired = 6 ∧
    (step g0 sActive (1/4) ext0).state.pos_desired = 2 := by
  have h1 := step_rounding g0 sActive (11/20) ext0 [] rfl rfl rfl rfl
  have h2 := step_rounding g0 sActive (1/4) ext0 [] rfl rfl rfl rfl
  rw [h1, h2]
  constructor
  · have e : clip1 (11/20) * (sActive.max_quantity : ℚ) = 11/2 := by
      norm_num [clip1, sActive, min_def, max_def]
    rw [e, pythonRound_11_2]
  · have e : clip1 (1/4) * (sActive.max_quantity : ℚ) = 5/2 := by
      norm_num [clip1, sActive, min_def, max_def]
    rw [e, pythonRound_5_2]

/-- C8 counterexample: on a forced-terminal step (finish requested) with the
out-of-range action 5, the call succeeds but the reported action field holds
the forced value 0, not the agent's raw value 5 — the raw value is not
retained on such steps. -/
theorem step_raw_action_counterexample :
    ¬((-1 : ℚ) ≤ 5 ∧ (5 : ℚ) ≤ 1) ∧
    (step g0 (finishOnNextStep sActive) 5 ext0).isOk = true ∧
    (step g0 (finishOnNextStep sActive) 5 ext0).state.action = 0 ∧
    (0 : ℚ) ≠ 5 := by
  refine ⟨by decide, rfl, rfl, by decide⟩

/-- C8 amended: on active-state steps where termination is not being forced,
an out-of-range action is clipped (order computation uses the clipped value)
rather than rejected, and the raw unclipped value is retained in the
environment's reported action field. -/
theorem step_clips_and_retains_raw (g : Gateway) (s : EnvState) (a : ℚ)
    (ext : StepExt) (q0 : List (Option ObsVec))
    (hdone : s.done = false) (hq : s.data_q = some q0)
    (hnf : forcedDone (stepEntry s ext.elapsed) = false)
    (hout : a < -1 ∨ 1 < a) :
    (step g s a ext).isOk = true ∧
    (step g s a ext).state.action = a ∧
    (issueGuard g s = true →
      (step g s a ext).state.pos_desired = pythonRound (clip1 a * s.max_quantity)) := by
  rw [step_active_eq g s a ext q0 hdone hq]
  refine ⟨rfl, ?_, ?_⟩
  · simp [StepOutcome.state, applyFills_eq, stepPreDequeue_state_action, hnf]
  · intro hguard
    simp [StepOutcome.state, applyFills_eq, stepPreDequeue_state_pos_desired,
      issueGuard_stepEntry, hguard, hnf, stepEntry_max_quantity]

/-- C8 witness: the amended statement at action 5 on a fresh episode. -/
theorem step_clips_and_retains_raw_witness :
    ((5 : ℚ) < -1 ∨ (1 : ℚ) < 5) ∧
    ((step g0 sActive 5 ext0).isOk = true ∧
     (step g0 sActive 5 ext0).state.action = 5 ∧
     (issueGuard g0 sActive = true →
       (step g0 sActive 5 ext0).state.pos_desired
         = pythonRound (clip1 5 * sActive.max_quantity))) :=
  ⟨Or.inr (by decide),
   step_clips_and_retains_raw g0 sActive 5 ext0 [] rfl rfl rfl (Or.inr (by decide))⟩

/-- C7: the market-data callback enqueues iff the transform result is not
the not-ready sentinel, the gateway is connected, the environment is not
done, and the queue exists; what is enqueued is the fully-formed transformed
observation, so a queue free of sentinels stays free of sentinels. -/
theorem on_mktdata_enqueue_iff (g : Gateway) (s : EnvState) (bar : BarRec) :
    (∀ q v, s.data_q = some q → mktdataObs g s bar = some v →
      g.connected = true → s.done = false →
      (onMktdata g s bar).data_q = some (q ++ [some v])) ∧
    ((mktdataObs g s bar = none ∨ g.connected = false ∨ s.done = true ∨
        s.data_q = none) →
      (onMktdata g s bar).data_q = s.data_q) ∧
    (∀ q q', s.data_q = some q → (∀ x ∈ q, x ≠ none) →
      (onMktdata g s bar).data_q = some q' → (∀ x ∈ q', x ≠ none)) := by
  refine ⟨?_, ?_, ?_⟩
  · intro q v hq hv hc hd
    simp [onMktdata, hq, hv, hc, hd]
  · intro h
    rcases homb : mktdataObs g s bar with _ | v
    · simp [onMktdata, homb]
    · rcases hdq : s.data_q with _ | q
      · simp [onMktdata, homb, hdq]
      · rcases h with h | h | h | h
        · exact absurd homb (by simp [h])
        · simp [onMktdata, homb, hdq, h]
        · simp [onMktdata, homb, hdq, h]
        · exact absurd hdq (by simp [h])
  · intro q q' hq hinv hq'
    rcases homb : mktdataObs g s bar with _ | v
    · simp [onMktdata, homb, hq] at hq'
      intro x hx
      exact hinv x (hq' ▸ hx)
    · by_cases hc : (g.connected && !s.done) = true
      · simp [onMktdata, homb, hq, hc] at hq'
        intro x hx
        rw [← hq'] at hx
        rcases List.mem_append.mp hx with hx | hx
        · exact hinv x hx
        · simp at hx
          simp [hx]
      · simp [onMktdata, homb, hq, hc] at hq'
        intro x hx
        exact hinv x (hq' ▸ hx)

/-- C7 witness: a ready transform on a connected, active environment with an
empty queue enqueues exactly the transformed bar, and the resulting queue
holds no sentinel. -/
theorem on_mktdata_enqueue_iff_witness :
    (onMktdata g0 sActive b0).data_q = some ([] ++ [some b0.vec]) ∧
    (∀ x ∈ ([] ++ [some b0.vec] : List (Option ObsVec)), x ≠ none) :=
  ⟨(on_mktdata_enqueue_iff g0 sActive b0).1 [] b0.vec rfl rfl rfl rfl,
   (on_mktdata_enqueue_iff g0 sActive b0).2.2 [] ([] ++ [some b0.vec]) rfl
     (by simp) ((on_mktdata_enqueue_iff g0 sActive b0).1 [] b0.vec rfl rfl rfl rfl)⟩
